import Mathlib

/-!
Shallow embedding of the multi-turn guarded-conversation core of
`responsible_ai/bedrock-guardrails/Guardrails with LangChain.ipynb`:
the functions `create_guardrails_format`, `convert_to_standard_format`
and the interactive loop `run_chat_interface`.

Python messages are either tuples `(role, content)` or dicts of the shape
`{"role": r, "content": [{"guardContent": {"text": {"text": t}}}]}`.
The Moderated Chat Model (`llm.invoke`) is an external collaborator and is
modelled as an oracle `List Message → Except String String`: `Except.ok c`
is a returned assistant content, `Except.error e` is any raised exception
(moderation block, transport failure, validation failure).

One iteration of the `while True` loop of `run_chat_interface` is the
function `chat_step`; it also returns the list of sequences that were
passed to the collaborator during the iteration, so that "no collaborator
call" and "the submitted sequence" are expressible.  The whole loop over a
list of operator input lines is `run_chat`.

The `except` branch of the source reads

    except Exception as e:
        print(f"Error: {str(e)}")
        print("Please try again.")
        # pop the last conversation history
        conversation_history.popRight()

A Python list has no attribute `popRight`, so the handler itself raises an
uncaught `AttributeError` and `run_chat_interface` terminates; this is
modelled by the `StepResult.crashed` outcome, which carries the transcript
as it stands at the moment of the crash.
-/

/-- ASCII whitespace, as stripped by the Python method `str.strip()`
(the inputs of this program are ASCII operator lines). -/
def pyIsSpace (c : Char) : Bool :=
  c = ' ' || c = '\t' || c = '\n' || c = '\r' || c = '\x0b' || c = '\x0c'

/-- Embedding of the Python method `str.strip()`: drop leading and
trailing whitespace. -/
def pyStrip (s : String) : String :=
  ⟨((s.data.dropWhile pyIsSpace).reverse.dropWhile pyIsSpace).reverse⟩

/-- Lower-case one character, as the Python method `str.lower()` does on
ASCII. -/
def pyLowerChar (c : Char) : Char :=
  if 'A' ≤ c && c ≤ 'Z' then Char.ofNat (c.toNat + 32) else c

/-- Embedding of the Python method `str.lower()`. -/
def pyLower (s : String) : String :=
  ⟨s.data.map pyLowerChar⟩

/-- The innermost `{"text": t}` layer of a guardContent wrapper. -/
structure GuardTextInner where
  text : String
deriving DecidableEq, Repr

/-- The `{"text": {"text": t}}` layer of a guardContent wrapper. -/
structure GuardText where
  text : GuardTextInner
deriving DecidableEq, Repr

/-- One element of the `"content"` list of a tagged message:
`{"guardContent": {"text": {"text": t}}}`. -/
structure GuardContentBlock where
  guardContent : GuardText
deriving DecidableEq, Repr

/-- A message of the conversation history: either a plain Python tuple
`(role, content)` or a dict-shaped tagged message. -/
inductive Message where
  | tuple (role : String) (content : String)
  | dict (role : String) (content : List GuardContentBlock)
deriving DecidableEq, Repr

/-- `True` exactly on dict-shaped (tagged) messages: the embedding of the
source's `isinstance(message, dict)` test. -/
def Message.isDict : Message → Bool
  | Message.dict _ _ => true
  | Message.tuple _ _ => false

/-- Embedding of `create_guardrails_format(text)`: wrap `text` for
Guardrails validation. -/
def create_guardrails_format (text : String) : Message :=
  Message.dict "user" [⟨⟨⟨text⟩⟩⟩]

/-- The per-message body of the loop inside `convert_to_standard_format`:
a dict is turned into `(role, content[0]["guardContent"]["text"]["text"])`
(`none` models the IndexError raised when `content` is empty), any other
message is appended unchanged. -/
def standardize_message : Message → Option Message
  | Message.dict role content =>
    match content.head? with
    | some block => some (Message.tuple role block.guardContent.text.text)
    | none => none
  | Message.tuple role content => some (Message.tuple role content)

/-- Embedding of `convert_to_standard_format(message_history)`: convert
every message to the standard `(role, content)` form, in order. -/
def convert_to_standard_format : List Message → Option (List Message)
  | [] => some []
  | message :: rest =>
    match standardize_message message, convert_to_standard_format rest with
    | some m, some ms => some (m :: ms)
    | _, _ => none

/-- The fixed system turn `run_chat_interface` starts the history with. -/
def bank_system_prompt : String :=
  "You are a helpful assistant that helps customers with bank related tasks like opening a checking or savings bank account, check balances."

/-- The initial `conversation_history` of `run_chat_interface`. -/
def bank_history : List Message :=
  [Message.tuple "system" bank_system_prompt]

/-- Outcome of one iteration of the `while True` loop. -/
inductive StepResult where
  | ended (history : List Message)
  | looped (history : List Message)
  | crashed (history : List Message) (err : String)
deriving DecidableEq, Repr

/-- The uncaught exception raised by `conversation_history.popRight()`. -/
def popRight_error : String :=
  "AttributeError: list object has no attribute popRight"

/-- One iteration of the interactive loop of `run_chat_interface`, on one
raw operator input line.  Also returns the sequences submitted to the
Moderated Chat Model oracle `invoke` during the iteration. -/
def chat_step (invoke : List Message → Except String String)
    (history : List Message) (raw_line : String) :
    StepResult × List (List Message) :=
  let user_input := pyStrip raw_line
  if pyLower user_input = "quit" then
    (StepResult.ended history, [])
  else if user_input = "" then
    (StepResult.looped history, [])
  else if pyLower user_input = "debug_dump" then
    (StepResult.looped history, [])
  else
    match convert_to_standard_format history with
    | none =>
      (StepResult.crashed history popRight_error, [])
    | some std =>
      let submitted := std ++ [create_guardrails_format user_input]
      match invoke submitted with
      | Except.ok content =>
        (StepResult.looped (submitted ++ [Message.tuple "assistant" content]),
          [submitted])
      | Except.error _ =>
        (StepResult.crashed submitted popRight_error, [submitted])

/-- Outcome of running the loop on a finite list of operator input lines:
either the operator quit, or the inputs ran out with the loop blocked on
`input()`, or an uncaught exception terminated `run_chat_interface`.
`remaining` holds the input lines the loop never consumed. -/
inductive RunResult where
  | ended (history : List Message) (remaining : List String)
  | awaiting (history : List Message)
  | crashed (history : List Message) (err : String) (remaining : List String)
deriving DecidableEq, Repr

/-- The `while True` loop of `run_chat_interface`, fed a list of operator
input lines. -/
def run_chat (invoke : List Message → Except String String) :
    List Message → List String → RunResult
  | history, [] => RunResult.awaiting history
  | history, line :: rest =>
    match chat_step invoke history line with
    | (StepResult.ended h, _) => RunResult.ended h rest
    | (StepResult.looped h, _) => run_chat invoke h rest
    | (StepResult.crashed h e, _) => RunResult.crashed h e rest

/-- A raw input line that reaches the submission path: after trimming it is
neither empty nor one of the literal commands. -/
def is_content_line (raw_line : String) : Bool :=
  pyStrip raw_line != "" && pyLower (pyStrip raw_line) != "quit"
    && pyLower (pyStrip raw_line) != "debug_dump"

/-- A collaborator oracle that always fails (any raised error, e.g. a
moderation block). -/
def invoke_moderation_blocked : List Message → Except String String :=
  fun _ => Except.error "ModerationBlocked"

/-- A collaborator oracle that always succeeds with a fixed reply. -/
def invoke_bank_ok : List Message → Except String String :=
  fun _ => Except.ok "reply"

/-! ### Helper lemmas -/

theorem standardize_message_tuple (role content : String) :
    standardize_message (Message.tuple role content) =
      some (Message.tuple role content) := rfl

theorem standardize_message_not_dict {m m' : Message}
    (h : standardize_message m = some m') : m'.isDict = false := by
  cases m with
  | tuple r c =>
    simp [standardize_message] at h
    subst h
    rfl
  | dict r content =>
    cases content with
    | nil => simp [standardize_message] at h
    | cons b rest =>
      simp [standardize_message] at h
      subst h
      rfl

theorem standardize_message_of_not_dict {m : Message} (h : m.isDict = false) :
    standardize_message m = some m := by
  cases m with
  | tuple r c => rfl
  | dict r content => simp [Message.isDict] at h

theorem convert_length : ∀ {h r : List Message},
    convert_to_standard_format h = some r → r.length = h.length := by
  intro h
  induction h with
  | nil =>
    intro r hr
    simp [convert_to_standard_format] at hr
    subst hr
    rfl
  | cons m rest ih =>
    intro r hr
    unfold convert_to_standard_format at hr
    cases hsm : standardize_message m with
    | none => rw [hsm] at hr; simp at hr
    | some m1 =>
      rw [hsm] at hr
      cases hcr : convert_to_standard_format rest with
      | none => rw [hcr] at hr; simp at hr
      | some rest1 =>
        rw [hcr] at hr
        simp at hr
        subst hr
        simp [ih hcr]

theorem convert_getElem? : ∀ {h r : List Message},
    convert_to_standard_format h = some r →
    ∀ i : Nat, r[i]? = (h[i]?).bind standardize_message := by
  intro h
  induction h with
  | nil =>
    intro r hr i
    simp [convert_to_standard_format] at hr
    subst hr
    simp
  | cons m rest ih =>
    intro r hr i
    unfold convert_to_standard_format at hr
    cases hsm : standardize_message m with
    | none => rw [hsm] at hr; simp at hr
    | some m1 =>
      rw [hsm] at hr
      cases hcr : convert_to_standard_format rest with
      | none => rw [hcr] at hr; simp at hr
      | some rest1 =>
        rw [hcr] at hr
        simp at hr
        subst hr
        cases i with
        | zero => simp [hsm]
        | succ j => simp [ih hcr j]

theorem convert_all_not_dict {h r : List Message}
    (hc : convert_to_standard_format h = some r) :
    ∀ m ∈ r, m.isDict = false := by
  induction h generalizing r with
  | nil =>
    simp [convert_to_standard_format] at hc
    subst hc
    simp
  | cons m rest ih =>
    unfold convert_to_standard_format at hc
    cases hsm : standardize_message m with
    | none => rw [hsm] at hc; simp at hc
    | some m1 =>
      rw [hsm] at hc
      cases hcr : convert_to_standard_format rest with
      | none => rw [hcr] at hc; simp at hc
      | some rest1 =>
        rw [hcr] at hc
        simp at hc
        subst hc
        intro x hx
        rcases List.mem_cons.mp hx with hx | hx
        · subst hx
          exact standardize_message_not_dict hsm
        · exact ih hcr x hx

theorem convert_of_all_not_dict : ∀ {h : List Message},
    (∀ m ∈ h, m.isDict = false) → convert_to_standard_format h = some h := by
  intro h
  induction h with
  | nil => intro _; rfl
  | cons m rest ih =>
    intro hall
    have hm : standardize_message m = some m :=
      standardize_message_of_not_dict (hall m (List.mem_cons_self m rest))
    have hrest : convert_to_standard_format rest = some rest :=
      ih fun x hx => hall x (List.mem_cons_of_mem m hx)
    unfold convert_to_standard_format
    rw [hm, hrest]

theorem convert_idem {h r : List Message}
    (hc : convert_to_standard_format h = some r) :
    convert_to_standard_format r = some r :=
  convert_of_all_not_dict (convert_all_not_dict hc)

theorem is_content_line_spec {raw_line : String}
    (hc : is_content_line raw_line = true) :
    pyStrip raw_line ≠ "" ∧ pyLower (pyStrip raw_line) ≠ "quit" ∧
      pyLower (pyStrip raw_line) ≠ "debug_dump" := by
  simp [is_content_line] at hc
  exact ⟨hc.1.1, hc.1.2, hc.2⟩

theorem chat_step_looped_eq {invoke : List Message → Except String String}
    {h res : List Message} {line : String} {calls : List (List Message)}
    (hc : is_content_line line = true)
    (hs : chat_step invoke h line = (StepResult.looped res, calls)) :
    ∃ std content, convert_to_standard_format h = some std ∧
      invoke (std ++ [create_guardrails_format (pyStrip line)]) =
        Except.ok content ∧
      res = std ++ [create_guardrails_format (pyStrip line),
        Message.tuple "assistant" content] ∧
      calls = [std ++ [create_guardrails_format (pyStrip line)]] := by
  obtain ⟨h1, h2, h3⟩ := is_content_line_spec hc
  unfold chat_step at hs
  rw [if_neg h2, if_neg h1, if_neg h3] at hs
  cases hcv : convert_to_standard_format h with
  | none => rw [hcv] at hs; simp at hs
  | some std =>
    rw [hcv] at hs
    dsimp only at hs
    cases hiv : invoke (std ++ [create_guardrails_format (pyStrip line)]) with
    | ok content =>
      rw [hiv] at hs
      simp at hs
      exact ⟨std, content, rfl, hiv, by simp [hs.1], by simp [hs.2]⟩
    | error e =>
      rw [hiv] at hs
      simp at hs

/-- Helper: a `quit` command line ends the session without touching the
history and without any collaborator call. -/
theorem chat_step_quit (invoke : List Message → Except String String)
    (h : List Message) (raw_line : String)
    (hq : pyLower (pyStrip raw_line) = "quit") :
    chat_step invoke h raw_line = (StepResult.ended h, []) := by
  unfold chat_step
  rw [if_pos hq]

/-- Helper: a `debug_dump` command line leaves the history untouched and
performs no collaborator call. -/
theorem chat_step_dump (invoke : List Message → Except String String)
    (h : List Message) (raw_line : String)
    (hd : pyLower (pyStrip raw_line) = "debug_dump") :
    chat_step invoke h raw_line = (StepResult.looped h, []) := by
  have hne : pyStrip raw_line ≠ "" := by
    intro h0
    rw [h0] at hd
    exact absurd hd (by decide)
  have hq : pyLower (pyStrip raw_line) ≠ "quit" := by
    rw [hd]
    decide
  unfold chat_step
  rw [if_neg hq, if_neg hne, if_pos hd]

/-- Helper: an empty-after-trimming line is a local no-op retry. -/
theorem chat_step_empty (invoke : List Message → Except String String)
    (h : List Message) (raw_line : String)
    (he : pyStrip raw_line = "") :
    chat_step invoke h raw_line = (StepResult.looped h, []) := by
  unfold chat_step
  rw [he]
  rw [if_neg (by decide : ¬ pyLower "" = "quit"), if_pos rfl]

/-! ### Claim theorems -/

/-- Claim C1: the claim states that on a failed Moderated Chat Model call
the submit operation removes exactly the just-appended tagged turn, so the
transcript is restored.  The code does not do this: the error handler calls
`conversation_history.popRight()`, which Python lists do not have, so the
handler raises an uncaught AttributeError; the tagged turn stays appended
and the transcript visible at the moment `run_chat_interface` dies differs
from the pre-call transcript.  This theorem evaluates the step at the
spec's own failing scenario. -/
theorem C1_failed_submit_no_rollback :
    chat_step invoke_moderation_blocked bank_history
        "What is a good stock to invest on?" =
      (StepResult.crashed
        (bank_history ++
          [create_guardrails_format "What is a good stock to invest on?"])
        popRight_error,
       [bank_history ++
          [create_guardrails_format "What is a good stock to invest on?"]]) ∧
    bank_history ++
        [create_guardrails_format "What is a good stock to invest on?"] ≠
      bank_history :=
  ⟨rfl, by decide⟩

/-- Claim C2: the claim states that no collaborator failure terminates the
session and the loop goes on to the next input.  In the code the failure
path itself raises an uncaught AttributeError (`popRight`), which
terminates `run_chat_interface`: the loop never consumes the next input
line "hello". -/
theorem C2_failure_terminates_loop :
    run_chat invoke_moderation_blocked bank_history
        ["What is a good stock to invest on?", "hello"] =
      RunResult.crashed
        (bank_history ++
          [create_guardrails_format "What is a good stock to invest on?"])
        popRight_error ["hello"] :=
  rfl

/-- Claim C3, counterexample: after one successful submission the user turn
is still stored in tagged (dict) form, and after two consecutive successful
submissions the debug dump shows 5 turns of which the fourth (the second
user turn) is still tagged — not "none tagged" as claimed. -/
theorem C3_counterexample :
    (chat_step invoke_bank_ok bank_history "What is a checking account?").1 =
      StepResult.looped
        [Message.tuple "system" bank_system_prompt,
         create_guardrails_format "What is a checking account?",
         Message.tuple "assistant" "reply"] ∧
    (create_guardrails_format "What is a checking account?").isDict = true ∧
    run_chat invoke_bank_ok bank_history
        ["What is a checking account?", "How do I open one?"] =
      RunResult.awaiting
        [Message.tuple "system" bank_system_prompt,
         Message.tuple "user" "What is a checking account?",
         Message.tuple "assistant" "reply",
         create_guardrails_format "How do I open one?",
         Message.tuple "assistant" "reply"] :=
  ⟨rfl, rfl, rfl⟩

/-- Claim C3, amended: after a successful submission every turn of the
transcript is in plain form EXCEPT the just-submitted user turn, which
sits at position `length - 2` and stays in tagged form until the start of
the next submission converts it; in particular after two consecutive
successful submissions the dump shows 5 turns in insertion order with
exactly the most recent user turn tagged. -/
theorem C3_all_plain_except_latest_user
    (invoke : List Message → Except String String)
    (h res : List Message) (line : String) (calls : List (List Message))
    (hc : is_content_line line = true)
    (hs : chat_step invoke h line = (StepResult.looped res, calls)) :
    res.length = h.length + 2 ∧
    res[res.length - 2]? = some (create_guardrails_format (pyStrip line)) ∧
    ∀ i m, i ≠ res.length - 2 → res[i]? = some m → m.isDict = false := by
  obtain ⟨std, content, hcv, hiv, hres, hcalls⟩ := chat_step_looped_eq hc hs
  have hlen : std.length = h.length := convert_length hcv
  subst hres
  have hidx : (std ++ [create_guardrails_format (pyStrip line),
      Message.tuple "assistant" content]).length - 2 = std.length := by
    simp
  refine ⟨by simp [hlen], ?_, ?_⟩
  · rw [hidx, List.getElem?_append_right (Nat.le_refl _)]
    simp
  · intro i m hne hget
    rw [hidx] at hne
    by_cases hi : i < std.length
    · rw [List.getElem?_append_left hi] at hget
      exact convert_all_not_dict hcv m (List.getElem?_mem hget)
    · push_neg at hi
      have hgt : std.length + 1 ≤ i := by omega
      rw [List.getElem?_append_right hi] at hget
      have hcase : i - std.length = 1 ∨ 2 ≤ i - std.length := by omega
      rcases hcase with hcase | hcase
      · rw [hcase] at hget
        simp at hget
        subst hget
        rfl
      · rw [List.getElem?_eq_none (by simpa using hcase)] at hget
        exact absurd hget (by simp)

/-- Claim C4: at the moment of every call to the Moderated Chat Model made
by a submit cycle, the submitted sequence ends with the single tagged turn
built from the trimmed input and every earlier element is plain, so exactly
one element is tagged and it is the last one. -/
theorem C4_submitted_sequence_tagging
    (invoke : List Message → Except String String)
    (h : List Message) (line : String) (res : StepResult)
    (calls : List (List Message)) (s : List Message)
    (hstep : chat_step invoke h line = (res, calls)) (hmem : s ∈ calls) :
    ∃ pre, s = pre ++ [create_guardrails_format (pyStrip line)] ∧
      (create_guardrails_format (pyStrip line)).isDict = true ∧
      ∀ m ∈ pre, m.isDict = false := by
  unfold chat_step at hstep
  by_cases hq : pyLower (pyStrip line) = "quit"
  · rw [if_pos hq] at hstep
    cases hstep
    simp at hmem
  · rw [if_neg hq] at hstep
    by_cases he : pyStrip line = ""
    · rw [if_pos he] at hstep
      cases hstep
      simp at hmem
    · rw [if_neg he] at hstep
      by_cases hd : pyLower (pyStrip line) = "debug_dump"
      · rw [if_pos hd] at hstep
        cases hstep
        simp at hmem
      · rw [if_neg hd] at hstep
        cases hcv : convert_to_standard_format h with
        | none =>
          rw [hcv] at hstep
          dsimp only at hstep
          cases hstep
          simp at hmem
        | some std =>
          rw [hcv] at hstep
          dsimp only at hstep
          cases hiv : invoke (std ++ [create_guardrails_format (pyStrip line)]) with
          | ok content =>
            rw [hiv] at hstep
            cases hstep
            have hseq : s = std ++ [create_guardrails_format (pyStrip line)] := by
              simpa using hmem
            exact ⟨std, hseq, rfl, convert_all_not_dict hcv⟩
          | error e =>
            rw [hiv] at hstep
            cases hstep
            have hseq : s = std ++ [create_guardrails_format (pyStrip line)] := by
              simpa using hmem
            exact ⟨std, hseq, rfl, convert_all_not_dict hcv⟩

/-- Claim C5: every successful submission grows the transcript by exactly
two turns (the user turn then the assistant turn), and the system turn at
index 0 is preserved unchanged. -/
theorem C5_success_grows_by_two
    (invoke : List Message → Except String String)
    (h res : List Message) (line : String) (calls : List (List Message))
    (hc : is_content_line line = true)
    (hs : chat_step invoke h line = (StepResult.looped res, calls)) :
    res.length = h.length + 2 ∧
    ∀ role content, h[0]? = some (Message.tuple role content) →
      res[0]? = some (Message.tuple role content) := by
  obtain ⟨std, c, hcv, hiv, hres, hcalls⟩ := chat_step_looped_eq hc hs
  have hlen : std.length = h.length := convert_length hcv
  subst hres
  refine ⟨by simp [hlen], ?_⟩
  intro role content h0
  have hstd0 : std[0]? = some (Message.tuple role content) := by
    rw [convert_getElem? hcv 0, h0]
    rfl
  have h0lt : 0 < std.length := by
    cases std with
    | nil => simp at hstd0
    | cons a l => simp
  rw [List.getElem?_append_left h0lt]
  exact hstd0

/-- Claim C6: an input line that is empty after trimming never reaches the
collaborator (no call is recorded) and leaves the transcript unchanged;
the loop just goes round again. -/
theorem C6_empty_input_noop
    (invoke : List Message → Except String String)
    (h : List Message) (raw_line : String)
    (he : pyStrip raw_line = "") :
    chat_step invoke h raw_line = (StepResult.looped h, []) :=
  chat_step_empty invoke h raw_line he

/-- Claim C7: un-tagging the tagged turn built from any text `t` recovers
the plain user turn: the tagged turn has role "user" and a single-element
moderation wrapper carrying exactly `t`, and `convert_to_standard_format`
maps it back to the pair `("user", t)`. -/
theorem C7_tag_untag_roundtrip (t : String) :
    create_guardrails_format t = Message.dict "user" [⟨⟨⟨t⟩⟩⟩] ∧
    standardize_message (create_guardrails_format t) =
      some (Message.tuple "user" t) ∧
    convert_to_standard_format [create_guardrails_format t] =
      some [Message.tuple "user" t] :=
  ⟨rfl, rfl, rfl⟩

/-- Claim C8: the debug-dump command leaves the transcript exactly as it
was (the dump prints the history value itself, verbatim) and performs no
Moderated Chat Model call (the list of collaborator calls is empty), for
every transcript and every collaborator. -/
theorem C8_debug_dump_pure
    (invoke : List Message → Except String String)
    (h : List Message) (raw_line : String)
    (hd : pyLower (pyStrip raw_line) = "debug_dump") :
    chat_step invoke h raw_line = (StepResult.looped h, []) :=
  chat_step_dump invoke h raw_line hd

/-- Claim C9: `convert_to_standard_format` preserves length and order
(entry `i` of the output is the standardization of entry `i` of the
input), is the identity on transcripts whose entries are already plain,
and is idempotent. -/
theorem C9_convert_algebra (h r : List Message) :
    (convert_to_standard_format h = some r →
      r.length = h.length ∧
      ∀ i : Nat, r[i]? = (h[i]?).bind standardize_message) ∧
    ((∀ m ∈ h, m.isDict = false) → convert_to_standard_format h = some h) ∧
    (convert_to_standard_format h = some r →
      convert_to_standard_format r = some r) :=
  ⟨fun hc => ⟨convert_length hc, convert_getElem? hc⟩,
   fun hall => convert_of_all_not_dict hall,
   fun hc => convert_idem hc⟩

/-- Claim C10: operator command recognition is whitespace-trimmed and
case-insensitive: any line whose trimmed lowercase form is "quit" ends the
session, and any line whose trimmed lowercase form is "debug_dump" dumps
without a collaborator call; neither kind of line is submitted as
conversational content or changes the transcript. -/
theorem C10_command_recognition
    (invoke : List Message → Except String String)
    (h : List Message) (raw_line : String) :
    (pyLower (pyStrip raw_line) = "quit" →
      chat_step invoke h raw_line = (StepResult.ended h, [])) ∧
    (pyLower (pyStrip raw_line) = "debug_dump" →
      chat_step invoke h raw_line = (StepResult.looped h, [])) :=
  ⟨fun hq => chat_step_quit invoke h raw_line hq,
   fun hd => chat_step_dump invoke h raw_line hd⟩

/-! ### Witnesses -/

/-- Witness for C3 (amended) at a concrete successful submission. -/
theorem C3_all_plain_except_latest_user_witness :
    ([Message.tuple "system" bank_system_prompt,
      create_guardrails_format "hi",
      Message.tuple "assistant" "reply"] : List Message).length =
      bank_history.length + 2 ∧
    ([Message.tuple "system" bank_system_prompt,
      create_guardrails_format "hi",
      Message.tuple "assistant" "reply"] :
        List Message)[([Message.tuple "system" bank_system_prompt,
          create_guardrails_format "hi",
          Message.tuple "assistant" "reply"] : List Message).length - 2]? =
      some (create_guardrails_format (pyStrip "hi")) := by
  have main := C3_all_plain_except_latest_user invoke_bank_ok bank_history
    [Message.tuple "system" bank_system_prompt,
     create_guardrails_format "hi",
     Message.tuple "assistant" "reply"] "hi"
    [[Message.tuple "system" bank_system_prompt,
      create_guardrails_format "hi"]] (by rfl) rfl
  exact ⟨main.1, main.2.1⟩

/-- Witness for C4 at a concrete collaborator call. -/
theorem C4_submitted_sequence_tagging_witness :
    ∃ pre, ([Message.tuple "system" bank_system_prompt,
        create_guardrails_format "hello there"] : List Message) =
        pre ++ [create_guardrails_format (pyStrip "hello there")] ∧
      (create_guardrails_format (pyStrip "hello there")).isDict = true ∧
      ∀ m ∈ pre, m.isDict = false :=
  C4_submitted_sequence_tagging invoke_bank_ok bank_history "hello there"
    (StepResult.looped
      [Message.tuple "system" bank_system_prompt,
       create_guardrails_format "hello there",
       Message.tuple "assistant" "reply"])
    [[Message.tuple "system" bank_system_prompt,
      create_guardrails_format "hello there"]]
    [Message.tuple "system" bank_system_prompt,
     create_guardrails_format "hello there"]
    rfl (by simp)

/-- Witness for C5 at a concrete successful submission. -/
theorem C5_success_grows_by_two_witness :
    ([Message.tuple "system" bank_system_prompt,
      create_guardrails_format "open an account",
      Message.tuple "assistant" "reply"] : List Message).length =
      bank_history.length + 2 ∧
    ([Message.tuple "system" bank_system_prompt,
      create_guardrails_format "open an account",
      Message.tuple "assistant" "reply"] : List Message)[0]? =
      some (Message.tuple "system" bank_system_prompt) := by
  have main := C5_success_grows_by_two invoke_bank_ok bank_history
    [Message.tuple "system" bank_system_prompt,
     create_guardrails_format "open an account",
     Message.tuple "assistant" "reply"] "open an account"
    [[Message.tuple "system" bank_system_prompt,
      create_guardrails_format "open an account"]] (by rfl) rfl
  exact ⟨main.1, main.2 "system" bank_system_prompt rfl⟩

/-- Witness for C6 at a concrete whitespace-only input. -/
theorem C6_empty_input_noop_witness :
    chat_step invoke_moderation_blocked bank_history "   " =
      (StepResult.looped bank_history, []) :=
  C6_empty_input_noop invoke_moderation_blocked bank_history "   " (by rfl)

/-- Witness for C8 at a concrete debug-dump line. -/
theorem C8_debug_dump_pure_witness :
    chat_step invoke_moderation_blocked bank_history " DEBUG_dump " =
      (StepResult.looped bank_history, []) :=
  C8_debug_dump_pure invoke_moderation_blocked bank_history " DEBUG_dump "
    (by rfl)

/-- Witness for C9 at a concrete mixed transcript. -/
theorem C9_convert_algebra_witness :
    ([Message.tuple "system" "s0", Message.tuple "user" "hi"] :
        List Message).length =
      ([Message.tuple "system" "s0", create_guardrails_format "hi"] :
        List Message).length ∧
    convert_to_standard_format
        [Message.tuple "system" "s0", Message.tuple "user" "hi"] =
      some [Message.tuple "system" "s0", Message.tuple "user" "hi"] :=
  ⟨((C9_convert_algebra
      [Message.tuple "system" "s0", create_guardrails_format "hi"]
      [Message.tuple "system" "s0", Message.tuple "user" "hi"]).1 (by rfl)).1,
   (C9_convert_algebra
      [Message.tuple "system" "s0", create_guardrails_format "hi"]
      [Message.tuple "system" "s0", Message.tuple "user" "hi"]).2.2 (by rfl)⟩

/-- Witness for C10 at concrete command lines with whitespace and mixed
case. -/
theorem C10_command_recognition_witness :
    chat_step invoke_bank_ok bank_history "  Quit " =
      (StepResult.ended bank_history, []) ∧
    chat_step invoke_bank_ok bank_history " DEBUG_DUMP" =
      (StepResult.looped bank_history, []) :=
  ⟨(C10_command_recognition invoke_bank_ok bank_history "  Quit ").1 (by rfl),
   (C10_command_recognition invoke_bank_ok bank_history " DEBUG_DUMP").2
     (by rfl)⟩
